import Mathlib

/-!
A shallow embedding of `schema_validator.py` from the usd-games repository:
a rule-based validator over a game scene graph, with six validation rules,
severity-tagged issues, per-severity counters, a serializable report and a
CLI exit-code policy.  Float values are modelled as rationals; attribute
value retrieval (`attr.Get(&x)`) is modelled as an `Option` that succeeds
exactly when a value of the requested kind is stored.
-/

namespace SchemaVal

/-- Severity levels for validation issues (`ValidationSeverity`). -/
inductive ValidationSeverity where
  | ERROR
  | WARNING
  | INFO
deriving DecidableEq, Repr

open ValidationSeverity

/-- `severity.name` as used in the report (`str(issue.severity.name)`). -/
def severityName : ValidationSeverity → String
  | ERROR => "ERROR"
  | WARNING => "WARNING"
  | INFO => "INFO"

/-- The value payload an attribute may hold: numeric (floats modelled as
rationals) or a token/string value. -/
inductive AttrValue where
  | num (q : ℚ)
  | tok (s : String)
deriving DecidableEq, Repr

/-- One attribute of a prim: its name, its declared value type tag
("float", "token", "matrix4d", "string", ...) and an optional stored value. -/
structure Attr where
  name : String
  typeName : String
  value : Option AttrValue
deriving DecidableEq, Repr

/-- A prim (node) of the scene graph, restricted to the query surface the
validator consumes: path, attributes, relationships, applied API schemas,
declared type, and the validity/abstractness flags used by the traversal. -/
structure Prim where
  path : String
  attributes : List Attr
  relationships : List String
  appliedSchemas : List String
  declaredType : String
  isValid : Bool
  isAbstract : Bool
deriving DecidableEq, Repr

/-- A stage: its prims in traversal (document) order, as `stage.Traverse()`
yields them. -/
structure Stage where
  prims : List Prim
deriving DecidableEq, Repr

/-- `prim.GetAttribute(name)`: the attribute with the given name, if any. -/
def getAttribute (p : Prim) (n : String) : Option Attr :=
  p.attributes.find? (fun a => a.name == n)

/-- `attr.Get(&floatValue)`: succeeds exactly when a numeric value is stored. -/
def getFloat (a : Attr) : Option ℚ :=
  match a.value with
  | some (.num q) => some q
  | _ => none

/-- `attr.Get(&token)`: succeeds exactly when a token value is stored. -/
def getToken (a : Attr) : Option String :=
  match a.value with
  | some (.tok s) => some s
  | _ => none

/-- Truthiness of `prim.GetRelationship(name)`: the relationship exists. -/
def hasRelationship (p : Prim) (n : String) : Bool :=
  p.relationships.contains n

/-- `ValidationIssue`: one validation finding. -/
structure ValidationIssue where
  path : String
  message : String
  severity : ValidationSeverity
  rule_id : String
  fix_description : Option String
deriving DecidableEq, Repr

/-- Rendering of a numeric value inside a message, modelling Python float
formatting for the values the rules interpolate (an integral float prints
with a trailing ".0"). -/
def fmtRat (q : ℚ) : String :=
  if q.den = 1 then toString q.num ++ ".0"
  else toString q.num ++ "/" ++ toString q.den

/-! ### Namespace rule (`NamespaceValidationRule`) -/

/-- The character class `[a-zA-Z]`. -/
def isAsciiLetter (c : Char) : Bool :=
  ('a' ≤ c && c ≤ 'z') || ('A' ≤ c && c ≤ 'Z')

/-- The character class `[a-zA-Z0-9_]`. -/
def isNameChar (c : Char) : Bool :=
  isAsciiLetter c || ('0' ≤ c && c ≤ '9') || c == '_'

/-- After at least one category letter: consume further category letters,
then `:` followed by `[a-zA-Z][a-zA-Z0-9_]*` to the end of the name. -/
def matchCatRest : List Char → Bool
  | ':' :: c :: cs => isAsciiLetter c && cs.all isNameChar
  | c :: cs => isAsciiLetter c && matchCatRest cs
  | [] => false

/-- `[a-zA-Z]+:[a-zA-Z][a-zA-Z0-9_]*` matched to the end of the input. -/
def matchTail : List Char → Bool
  | c :: cs => isAsciiLetter c && matchCatRest cs
  | [] => false

/-- `s.startswith(t)`, computed on the character list (so that closed
instances reduce inside the kernel). -/
def strStartsWith (s t : String) : Bool :=
  t.toList.isPrefixOf s.toList

/-- The compiled pattern `^sparkle:[a-zA-Z]+:[a-zA-Z][a-zA-Z0-9_]*$`
(`self.namespace_pattern`). -/
def namespacePatternMatch (name : String) : Bool :=
  strStartsWith name "sparkle:" && matchTail (name.toList.drop 8)

/-- The `SCHEMA_NAMESPACE_001` issue for one offending attribute name. -/
def namespaceIssue (path name : String) : ValidationIssue :=
  { path := path
    message := "Attribute '" ++ name ++ "' does not follow namespace convention"
    severity := ERROR
    rule_id := "SCHEMA_NAMESPACE_001"
    fix_description := some "Rename to follow pattern 'sparkle:category:name'" }

/-- Per-attribute body of `NamespaceValidationRule.validate`: non-sparkle
attributes are skipped, sparkle-prefixed names are checked against the
pattern. -/
def namespaceAttrIssues (path : String) (a : Attr) : List ValidationIssue :=
  if strStartsWith a.name "sparkle:" then
    if namespacePatternMatch a.name then [] else [namespaceIssue path a.name]
  else []

/-- `NamespaceValidationRule.validate`. -/
def namespaceValidate (p : Prim) : List ValidationIssue :=
  (p.attributes.map (namespaceAttrIssues p.path)).flatten

/-! ### Health rule (`HealthComponentValidationRule`) -/

/-- Missing required health attribute (ERROR). -/
def healthMissingIssue (path attrName : String) : ValidationIssue :=
  { path := path
    message := "Health component missing required attribute '" ++ attrName ++ "'"
    severity := ERROR
    rule_id := "HEALTH_COMP_001"
    fix_description := some ("Add attribute '" ++ attrName ++ "' with appropriate value") }

/-- Health attribute of the wrong type (ERROR). -/
def healthTypeIssue (path attrName typeName : String) : ValidationIssue :=
  { path := path
    message := "Attribute '" ++ attrName ++ "' has incorrect type '" ++ typeName ++
      "', expected 'float'"
    severity := ERROR
    rule_id := "HEALTH_COMP_001"
    fix_description := some "Change attribute type to 'float'" }

/-- Health attribute value below the minimum of 0.0 (ERROR). -/
def healthMinIssue (path attrName : String) (v : ℚ) : ValidationIssue :=
  { path := path
    message := "Attribute '" ++ attrName ++ "' value " ++ fmtRat v ++
      " is less than minimum 0.0"
    severity := ERROR
    rule_id := "HEALTH_COMP_001"
    fix_description := some "Set value to at least 0.0" }

/-- Current health exceeding maximum health (ERROR). -/
def healthExceedsIssue (path : String) (cur mx : ℚ) : ValidationIssue :=
  { path := path
    message := "Current health (" ++ fmtRat cur ++ ") exceeds maximum health (" ++
      fmtRat mx ++ ")"
    severity := ERROR
    rule_id := "HEALTH_COMP_001"
    fix_description :=
      some "Reduce current health to be less than or equal to maximum health" }

/-- The per-required-attribute checks of `HealthComponentValidationRule.validate`:
existence (with `continue` on a missing attribute), declared type, and the
minimum-value check, which fires only when `attr.Get` succeeds. -/
def healthAttrSegment (p : Prim) (attrName : String) : List ValidationIssue :=
  match getAttribute p attrName with
  | none => [healthMissingIssue p.path attrName]
  | some a =>
    (if a.typeName = "float" then [] else [healthTypeIssue p.path attrName a.typeName]) ++
    (match getFloat a with
     | some v => if v < 0 then [healthMinIssue p.path attrName v] else []
     | none => [])

/-- The current-versus-maximum consistency check: fires only when both
attributes exist and both `Get` calls succeed. -/
def healthExceedsSegment (p : Prim) : List ValidationIssue :=
  match getAttribute p "sparkle:health:current",
        getAttribute p "sparkle:health:maximum" with
  | some ca, some ma =>
    (match getFloat ca, getFloat ma with
     | some cv, some mv => if cv > mv then [healthExceedsIssue p.path cv mv] else []
     | _, _ => [])
  | _, _ => []

/-- `HealthComponentValidationRule.validate`. -/
def healthValidate (p : Prim) : List ValidationIssue :=
  if "SparkleHealthAPI" ∈ p.appliedSchemas then
    healthAttrSegment p "sparkle:health:current" ++
    healthAttrSegment p "sparkle:health:maximum" ++
    healthExceedsSegment p
  else []

/-! ### Movement rule (`MovementComponentValidationRule`) -/

/-- The pattern allow-list, in source order. -/
def allowedPatterns : List String :=
  ["direct", "patrol", "wander", "charge", "flee", "stationary"]

/-- Missing `sparkle:movement:speed` (ERROR). -/
def movementSpeedMissingIssue (path : String) : ValidationIssue :=
  { path := path
    message := "Movement component missing required attribute 'sparkle:movement:speed'"
    severity := ERROR
    rule_id := "MOVEMENT_COMP_001"
    fix_description := some "Add 'sparkle:movement:speed' attribute with appropriate value" }

/-- Negative movement speed (ERROR). -/
def movementSpeedNegativeIssue (path : String) (s : ℚ) : ValidationIssue :=
  { path := path
    message := "Movement speed (" ++ fmtRat s ++ ") cannot be negative"
    severity := ERROR
    rule_id := "MOVEMENT_COMP_001"
    fix_description := some "Set speed to a non-negative value" }

/-- Movement speed above 100 (WARNING). -/
def movementSpeedHighIssue (path : String) (s : ℚ) : ValidationIssue :=
  { path := path
    message := "Movement speed (" ++ fmtRat s ++ ") exceeds maximum reasonable value (100)"
    severity := WARNING
    rule_id := "MOVEMENT_COMP_001"
    fix_description := some "Consider reducing speed unless extreme speed is intentional" }

/-- Missing `sparkle:movement:pattern` (WARNING). -/
def movementPatternMissingIssue (path : String) : ValidationIssue :=
  { path := path
    message := "Movement component missing required attribute 'sparkle:movement:pattern'"
    severity := WARNING
    rule_id := "MOVEMENT_COMP_001"
    fix_description := some "Add 'sparkle:movement:pattern' attribute with appropriate value" }

/-- Movement pattern outside the allow-list (ERROR). -/
def movementPatternInvalidIssue (path : String) (t : String) : ValidationIssue :=
  { path := path
    message := "Movement pattern '" ++ t ++ "' is not one of the allowed values: " ++
      String.intercalate ", " allowedPatterns
    severity := ERROR
    rule_id := "MOVEMENT_COMP_001"
    fix_description := some ("Set pattern to one of: " ++ String.intercalate ", " allowedPatterns) }

/-- The speed checks of `MovementComponentValidationRule.validate`. -/
def movementSpeedSegment (p : Prim) : List ValidationIssue :=
  match getAttribute p "sparkle:movement:speed" with
  | none => [movementSpeedMissingIssue p.path]
  | some a =>
    match getFloat a with
    | some s =>
      if s < 0 then [movementSpeedNegativeIssue p.path s]
      else if s > 100 then [movementSpeedHighIssue p.path s]
      else []
    | none => []

/-- The pattern checks of `MovementComponentValidationRule.validate`. -/
def movementPatternSegment (p : Prim) : List ValidationIssue :=
  match getAttribute p "sparkle:movement:pattern" with
  | none => [movementPatternMissingIssue p.path]
  | some a =>
    match getToken a with
    | some t => if t ∈ allowedPatterns then [] else [movementPatternInvalidIssue p.path t]
    | none => []

/-- `MovementComponentValidationRule.validate`. -/
def movementValidate (p : Prim) : List ValidationIssue :=
  if "SparkleMovementAPI" ∈ p.appliedSchemas then
    movementSpeedSegment p ++ movementPatternSegment p
  else []

/-! ### AI rule (`AiComponentValidationRule`) -/

/-- The behavior allow-list, in source order. -/
def allowedBehaviors : List String :=
  ["passive", "defensive", "aggressive", "neutral", "flee"]

/-- Missing `sparkle:ai:behavior` (ERROR). -/
def aiBehaviorMissingIssue (path : String) : ValidationIssue :=
  { path := path
    message := "AI component missing required attribute 'sparkle:ai:behavior'"
    severity := ERROR
    rule_id := "AI_COMP_001"
    fix_description := some "Add 'sparkle:ai:behavior' attribute with appropriate value" }

/-- AI behavior outside the allow-list (ERROR). -/
def aiBehaviorInvalidIssue (path : String) (b : String) : ValidationIssue :=
  { path := path
    message := "AI behavior '" ++ b ++ "' is not one of the allowed values: " ++
      String.intercalate ", " allowedBehaviors
    severity := ERROR
    rule_id := "AI_COMP_001"
    fix_description := some ("Set behavior to one of: " ++ String.intercalate ", " allowedBehaviors) }

/-- Negative AI detection radius (ERROR). -/
def aiRadiusNegativeIssue (path : String) (r : ℚ) : ValidationIssue :=
  { path := path
    message := "AI detection radius (" ++ fmtRat r ++ ") cannot be negative"
    severity := ERROR
    rule_id := "AI_COMP_001"
    fix_description := some "Set detection radius to a non-negative value" }

/-- Patrol-path relationship present but movement pattern differs from
"patrol" (WARNING). -/
def aiPatrolMismatchIssue (path : String) (t : String) : ValidationIssue :=
  { path := path
    message := "AI has patrol path but movement pattern is '" ++ t ++
      "' instead of 'patrol'"
    severity := WARNING
    rule_id := "AI_COMP_001"
    fix_description := some "Change movement pattern to 'patrol' to match patrol path relationship" }

/-- The behavior checks of `AiComponentValidationRule.validate`. -/
def aiBehaviorSegment (p : Prim) : List ValidationIssue :=
  match getAttribute p "sparkle:ai:behavior" with
  | none => [aiBehaviorMissingIssue p.path]
  | some a =>
    match getToken a with
    | some b => if b ∈ allowedBehaviors then [] else [aiBehaviorInvalidIssue p.path b]
    | none => []

/-- The detection-radius check: only fires when the attribute exists, its
`Get` succeeds and the value is negative. -/
def aiRadiusSegment (p : Prim) : List ValidationIssue :=
  match getAttribute p "sparkle:ai:detectionRadius" with
  | none => []
  | some a =>
    match getFloat a with
    | some r => if r < 0 then [aiRadiusNegativeIssue p.path r] else []
    | none => []

/-- The patrol-path consistency check: only fires when the relationship
exists, the movement-pattern attribute exists, its `Get` succeeds and the
pattern differs from "patrol". -/
def aiPatrolSegment (p : Prim) : List ValidationIssue :=
  if hasRelationship p "sparkle:ai:patrolPath" then
    match getAttribute p "sparkle:movement:pattern" with
    | none => []
    | some a =>
      match getToken a with
      | some t => if t ≠ "patrol" then [aiPatrolMismatchIssue p.path t] else []
      | none => []
  else []

/-- `AiComponentValidationRule.validate`. -/
def aiValidate (p : Prim) : List ValidationIssue :=
  if "SparkleAIAPI" ∈ p.appliedSchemas then
    aiBehaviorSegment p ++ aiRadiusSegment p ++ aiPatrolSegment p
  else []

/-! ### Performance rule (`PerformanceValidationRule`) -/

/-- Too many applied API schemas (WARNING). -/
def perfSchemasIssue (path : String) (n : ℕ) : ValidationIssue :=
  { path := path
    message := "Prim has excessive number of API schemas applied (" ++ toString n ++ ")"
    severity := WARNING
    rule_id := "PERF_001"
    fix_description := some "Consider consolidating functionality to reduce schema count" }

/-- Too many attributes (WARNING). -/
def perfAttrsIssue (path : String) (n : ℕ) : ValidationIssue :=
  { path := path
    message := "Prim has excessive number of attributes (" ++ toString n ++ ")"
    severity := WARNING
    rule_id := "PERF_001"
    fix_description := some "Consider refactoring to reduce attribute count" }

/-- Too many attributes of expensive data types (WARNING). -/
def perfExpensiveIssue (path : String) (n : ℕ) : ValidationIssue :=
  { path := path
    message := "Prim has many attributes with expensive data types (" ++ toString n ++ ")"
    severity := WARNING
    rule_id := "PERF_001"
    fix_description := some "Consider using more efficient data types where possible" }

/-- Count of attributes whose type is `Matrix4d` or `String`. -/
def expensiveAttrCount (p : Prim) : ℕ :=
  (p.attributes.filter (fun a => a.typeName == "matrix4d" || a.typeName == "string")).length

/-- `PerformanceValidationRule.validate`. -/
def performanceValidate (p : Prim) : List ValidationIssue :=
  (if p.appliedSchemas.length > 10 then [perfSchemasIssue p.path p.appliedSchemas.length] else []) ++
  (if p.attributes.length > 50 then [perfAttrsIssue p.path p.attributes.length] else []) ++
  (if expensiveAttrCount p > 10 then [perfExpensiveIssue p.path (expensiveAttrCount p)] else [])

/-! ### Entity-type rule (`EntityTypeValidationRule`) -/

/-- Enemy missing a recommended API schema (WARNING). -/
def enemyMissingSchemaIssue (path schema : String) : ValidationIssue :=
  { path := path
    message := "Enemy is missing recommended schema: " ++ schema
    severity := WARNING
    rule_id := "ENTITY_TYPE_001"
    fix_description := some ("Apply " ++ schema ++ " to this enemy entity") }

/-- Player missing a recommended API schema (WARNING). -/
def playerMissingSchemaIssue (path schema : String) : ValidationIssue :=
  { path := path
    message := "Player is missing recommended schema: " ++ schema
    severity := WARNING
    rule_id := "ENTITY_TYPE_001"
    fix_description := some ("Apply " ++ schema ++ " to this player entity") }

/-- Pickup missing the required id attribute (ERROR). -/
def pickupIdIssue (path : String) : ValidationIssue :=
  { path := path
    message := "Pickup is missing required 'sparkle:entity:id' attribute"
    severity := ERROR
    rule_id := "ENTITY_TYPE_001"
    fix_description := some "Add 'sparkle:entity:id' attribute with unique ID" }

/-- `EntityTypeValidationRule._validate_enemy`. -/
def validateEnemy (p : Prim) : List ValidationIssue :=
  (["SparkleHealthAPI", "SparkleCombatAPI", "SparkleAIAPI"].filter
    (fun s => !(p.appliedSchemas.contains s))).map (enemyMissingSchemaIssue p.path)

/-- `EntityTypeValidationRule._validate_player`. -/
def validatePlayer (p : Prim) : List ValidationIssue :=
  (["SparkleHealthAPI", "SparkleMovementAPI"].filter
    (fun s => !(p.appliedSchemas.contains s))).map (playerMissingSchemaIssue p.path)

/-- `EntityTypeValidationRule._validate_pickup`. -/
def validatePickup (p : Prim) : List ValidationIssue :=
  match getAttribute p "sparkle:entity:id" with
  | none => [pickupIdIssue p.path]
  | some _ => []

/-- `EntityTypeValidationRule.validate`: dispatch on the declared entity type. -/
def entityTypeValidate (p : Prim) : List ValidationIssue :=
  if p.declaredType = "SparkleEnemyCarrot" then validateEnemy p
  else if p.declaredType = "SparklePlayer" then validatePlayer p
  else if p.declaredType = "SparklePickup" then validatePickup p
  else []

/-! ### Validator orchestration (`SchemaValidator`) -/

/-- The per-severity counters (`self.issue_counts`). -/
structure IssueCounts where
  errors : ℕ
  warnings : ℕ
  infos : ℕ
deriving DecidableEq, Repr

/-- `self.issue_counts[issue.severity] += 1`. -/
def IssueCounts.bump (c : IssueCounts) (i : ValidationIssue) : IssueCounts :=
  match i.severity with
  | ERROR => { c with errors := c.errors + 1 }
  | WARNING => { c with warnings := c.warnings + 1 }
  | INFO => { c with infos := c.infos + 1 }

/-- The validator's mutable run state: accumulated issues and counters.
The rule list is fixed at construction and never mutated, so it is kept as
a global definition (`rulesList`) rather than a field. -/
structure SchemaValidator where
  all_issues : List ValidationIssue
  issue_counts : IssueCounts
deriving DecidableEq, Repr

/-- The fixed rule registration order from `SchemaValidator.__init__`. -/
def rulesList : List (Prim → List ValidationIssue) :=
  [namespaceValidate, healthValidate, movementValidate, aiValidate,
   performanceValidate, entityTypeValidate]

/-- The freshly reset run state. -/
def initValidator : SchemaValidator :=
  { all_issues := [], issue_counts := ⟨0, 0, 0⟩ }

/-- One rule application inside `_validate_prim`: guarded by `if issues:`,
extend the accumulated list and count each issue by severity. -/
def applyRule (v : SchemaValidator) (issues : List ValidationIssue) : SchemaValidator :=
  if issues.isEmpty then v
  else
    { all_issues := v.all_issues ++ issues
      issue_counts := issues.foldl IssueCounts.bump v.issue_counts }

/-- `SchemaValidator._validate_prim`: run every rule against one prim. -/
def validatePrim (v : SchemaValidator) (p : Prim) : SchemaValidator :=
  rulesList.foldl (fun v r => applyRule v (r p)) v

/-- `SchemaValidator.validate_stage`: reset the issue list and all counters,
then validate every valid, non-abstract prim in traversal order.  The
incoming state is discarded by the reset. -/
def validate_stage (_v : SchemaValidator) (st : Stage) : SchemaValidator :=
  (st.prims.filter (fun p => p.isValid && !p.isAbstract)).foldl validatePrim initValidator

/-- `SchemaValidator.get_summary`. -/
def get_summary (v : SchemaValidator) : String :=
  "Validation complete: " ++ toString v.issue_counts.errors ++ " errors, " ++
    toString v.issue_counts.warnings ++ " warnings, " ++
    toString v.issue_counts.infos ++ " info"

/-- The issue sequence `print_issues` walks: all accumulated issues,
optionally filtered to one severity. -/
def issuesFiltered (v : SchemaValidator) (f : Option ValidationSeverity) : List ValidationIssue :=
  v.all_issues.filter (fun i =>
    match f with
    | none => true
    | some s => i.severity == s)

/-- `SchemaValidator.has_errors`. -/
def has_errors (v : SchemaValidator) : Bool :=
  decide (v.issue_counts.errors > 0)

/-! ### Report (`SchemaValidator.generate_report`) -/

/-- The JSON values `json.dump` serializes for the report. -/
inductive Json where
  | str (s : String)
  | num (n : ℕ)
  | jnull
  | arr (xs : List Json)
  | obj (fields : List (String × Json))

/-- The keys of a JSON object, in serialization order. -/
def objKeys : Json → List String
  | .obj fs => fs.map Prod.fst
  | _ => []

/-- Lookup of a key in a JSON object. -/
def objGet (j : Json) (k : String) : Option Json :=
  match j with
  | .obj fs => (fs.find? (fun kv => kv.1 == k)).map Prod.snd
  | _ => none

/-- One issue record of the report, with the field names the source writes. -/
def issueToJson (i : ValidationIssue) : Json :=
  .obj [("path", .str i.path),
        ("message", .str i.message),
        ("severity", .str (severityName i.severity)),
        ("rule_id", .str i.rule_id),
        ("fix_description",
          match i.fix_description with
          | some s => .str s
          | none => .jnull)]

/-- `SchemaValidator.generate_report`: the structured object handed to
`json.dump` (persistence itself is outside the model; `json.dump` writes
dict fields in insertion order, which the field list preserves). -/
def generate_report (v : SchemaValidator) : Json :=
  .obj [("summary", .obj [("errors", .num v.issue_counts.errors),
                          ("warnings", .num v.issue_counts.warnings),
                          ("info", .num v.issue_counts.infos),
                          ("total", .num v.all_issues.length)]),
        ("issues", .arr (v.all_issues.map issueToJson))]

/-! ### CLI entry point (`main`) -/

/-- The exit code of `main`, as a function of whether the input file
exists, whether the stage opens, and the validation outcome. -/
def mainExitCode (fileExists : Bool) (openedStage : Option Stage) : ℕ :=
  if !fileExists then 1
  else
    match openedStage with
    | none => 1
    | some st =>
      if has_errors (validate_stage initValidator st) then 1 else 0

/-! ### Concrete prims and report-shape definitions used by the claims -/

/-- A prim none of the capability-gated rules applies to. -/
def plainPrim : Prim :=
  { path := "/World/Plain"
    attributes := [⟨"radius", "float", some (.num 1)⟩]
    relationships := []
    appliedSchemas := []
    declaredType := "Scope"
    isValid := true
    isAbstract := false }

/-- A prim whose checked numeric attributes sit exactly at their minima. -/
def boundaryPrim : Prim :=
  { path := "/World/Boundary"
    attributes :=
      [⟨"sparkle:health:current", "float", some (.num 0)⟩,
       ⟨"sparkle:health:maximum", "float", some (.num 0)⟩,
       ⟨"sparkle:movement:speed", "float", some (.num 0)⟩,
       ⟨"sparkle:movement:pattern", "token", some (.tok "direct")⟩,
       ⟨"sparkle:ai:behavior", "token", some (.tok "passive")⟩,
       ⟨"sparkle:ai:detectionRadius", "float", some (.num 0)⟩]
    relationships := []
    appliedSchemas := ["SparkleHealthAPI", "SparkleMovementAPI", "SparkleAIAPI"]
    declaredType := "Scope"
    isValid := true
    isAbstract := false }

/-- Scenario A prim: current health 150 exceeds maximum health 100. -/
def scenarioAPrim : Prim :=
  { path := "/World/Enemy"
    attributes :=
      [⟨"sparkle:health:current", "float", some (.num 150)⟩,
       ⟨"sparkle:health:maximum", "float", some (.num 100)⟩]
    relationships := []
    appliedSchemas := ["SparkleHealthAPI"]
    declaredType := "Scope"
    isValid := true
    isAbstract := false }

/-- Scenario C prim: one attribute with a malformed sparkle name. -/
def badNamePrim : Prim :=
  { path := "/World/BadAttr"
    attributes := [⟨"sparkle:BadName", "float", none⟩]
    relationships := []
    appliedSchemas := []
    declaredType := "Scope"
    isValid := true
    isAbstract := false }

/-- A patrolling AI prim whose movement pattern is "wander". -/
def patrolMismatchPrim : Prim :=
  { path := "/World/P1"
    attributes := [⟨"sparkle:movement:pattern", "token", some (.tok "wander")⟩]
    relationships := ["sparkle:ai:patrolPath"]
    appliedSchemas := ["SparkleAIAPI"]
    declaredType := "Scope"
    isValid := true
    isAbstract := false }

/-- A patrolling AI prim with no movement-pattern attribute at all. -/
def patrolNoPatternPrim : Prim :=
  { path := "/World/P2"
    attributes := []
    relationships := ["sparkle:ai:patrolPath"]
    appliedSchemas := ["SparkleAIAPI", "SparkleMovementAPI"]
    declaredType := "Scope"
    isValid := true
    isAbstract := false }

/-- A prim whose checked attributes exist but carry no retrievable value. -/
def noValuePrim : Prim :=
  { path := "/World/NoValue"
    attributes :=
      [⟨"sparkle:health:current", "float", none⟩,
       ⟨"sparkle:health:maximum", "float", some (.num 100)⟩,
       ⟨"sparkle:movement:speed", "float", none⟩,
       ⟨"sparkle:movement:pattern", "token", none⟩]
    relationships := []
    appliedSchemas := ["SparkleHealthAPI", "SparkleMovementAPI"]
    declaredType := "Scope"
    isValid := true
    isAbstract := false }

/-- The issue-record field names prescribed by the spec (stated from the
spec's words, for comparison with `issueToJson`). -/
def specIssueRecordKeys : List String :=
  ["path", "message", "severity_name", "rule_id", "fix_description"]

/-- The issue-record field names the code writes in `generate_report`. -/
def codeIssueRecordKeys : List String :=
  ["path", "message", "severity", "rule_id", "fix_description"]

/-- The report shape exactly as the claim states it: top-level `summary`
(with `errors`, `warnings`, `info`, `total`) and `issues`, every element of
`issues` carrying the spec's field names, including `severity_name`. -/
def claimReportShape (r : Json) : Prop :=
  objKeys r = ["summary", "issues"] ∧
  (∃ s, objGet r "summary" = some s ∧
    objKeys s = ["errors", "warnings", "info", "total"]) ∧
  (∃ xs, objGet r "issues" = some (.arr xs) ∧
    ∀ entry ∈ xs, objKeys entry = specIssueRecordKeys)

/-- A stage whose single prim produces exactly one validation issue. -/
def c1Stage : Stage := ⟨[badNamePrim]⟩

/-- The report generated for `c1Stage`. -/
def c1Report : Json := generate_report (validate_stage initValidator c1Stage)

/-! ## Helper lemmas -/

/-- Boolean test for one severity. -/
def sevIs (s : ValidationSeverity) (i : ValidationIssue) : Bool :=
  i.severity == s

/-- The counters agree with the accumulated issue list. -/
def countsConsistent (v : SchemaValidator) : Prop :=
  v.issue_counts.errors = v.all_issues.countP (sevIs ERROR) ∧
  v.issue_counts.warnings = v.all_issues.countP (sevIs WARNING) ∧
  v.issue_counts.infos = v.all_issues.countP (sevIs INFO)

lemma foldl_bump_counts (issues : List ValidationIssue) (c : IssueCounts) :
    issues.foldl IssueCounts.bump c =
      ⟨c.errors + issues.countP (sevIs ERROR),
       c.warnings + issues.countP (sevIs WARNING),
       c.infos + issues.countP (sevIs INFO)⟩ := by
  induction issues generalizing c with
  | nil => simp
  | cons i is ih =>
    rw [List.foldl_cons, ih]
    cases h : i.severity <;>
      simp [IssueCounts.bump, h, sevIs, List.countP_cons, IssueCounts.mk.injEq] <;> omega

lemma applyRule_consistent (v : SchemaValidator) (issues : List ValidationIssue)
    (h : countsConsistent v) : countsConsistent (applyRule v issues) := by
  unfold applyRule
  split
  · exact h
  · obtain ⟨h1, h2, h3⟩ := h
    refine ⟨?_, ?_, ?_⟩ <;>
      simp [foldl_bump_counts, List.countP_append, h1, h2, h3]

lemma foldl_applyRule_consistent (rs : List (Prim → List ValidationIssue)) (p : Prim)
    (v : SchemaValidator) (h : countsConsistent v) :
    countsConsistent (rs.foldl (fun v r => applyRule v (r p)) v) := by
  induction rs generalizing v with
  | nil => exact h
  | cons r rs ih => exact ih _ (applyRule_consistent _ _ h)

lemma validatePrim_consistent (v : SchemaValidator) (p : Prim)
    (h : countsConsistent v) : countsConsistent (validatePrim v p) :=
  foldl_applyRule_consistent rulesList p v h

lemma foldl_validatePrim_consistent (ps : List Prim) (v : SchemaValidator)
    (h : countsConsistent v) : countsConsistent (ps.foldl validatePrim v) := by
  induction ps generalizing v with
  | nil => exact h
  | cons p ps ih => exact ih _ (validatePrim_consistent v p h)

lemma validate_stage_consistent (v : SchemaValidator) (st : Stage) :
    countsConsistent (validate_stage v st) :=
  foldl_validatePrim_consistent _ _ ⟨rfl, rfl, rfl⟩

lemma issuesFiltered_some (v : SchemaValidator) (s : ValidationSeverity) :
    issuesFiltered v (some s) = v.all_issues.filter (sevIs s) := rfl

/-! ## Claims -/

/-- **C2**: calling `validate_stage` twice in succession on an unchanged
stage yields, after the second call, the same issue list and the same
per-severity counters as after the first call: the accumulated state is
fully reset before traversing, so no state leaks between runs. -/
theorem c2_validate_twice_same (v : SchemaValidator) (st : Stage) :
    (validate_stage (validate_stage v st) st).all_issues
        = (validate_stage v st).all_issues ∧
    (validate_stage (validate_stage v st) st).issue_counts
        = (validate_stage v st).issue_counts :=
  ⟨rfl, rfl⟩

/-- **C3**: after any `validate_stage` run, each stored per-severity counter
equals the number of issues of that severity in the accumulated issue list,
and `has_errors` is true iff the ERROR-filtered issue list is non-empty. -/
theorem c3_counts_match_issue_list (v : SchemaValidator) (st : Stage) :
    ((validate_stage v st).issue_counts.errors
        = ((validate_stage v st).all_issues.filter (sevIs ERROR)).length ∧
     (validate_stage v st).issue_counts.warnings
        = ((validate_stage v st).all_issues.filter (sevIs WARNING)).length ∧
     (validate_stage v st).issue_counts.infos
        = ((validate_stage v st).all_issues.filter (sevIs INFO)).length) ∧
    (has_errors (validate_stage v st) = true ↔
      issuesFiltered (validate_stage v st) (some ERROR) ≠ []) := by
  obtain ⟨h1, h2, h3⟩ := validate_stage_consistent v st
  refine ⟨⟨?_, ?_, ?_⟩, ?_⟩
  · rw [h1, List.countP_eq_length_filter]
  · rw [h2, List.countP_eq_length_filter]
  · rw [h3, List.countP_eq_length_filter]
  · rw [has_errors, decide_eq_true_iff, h1, List.countP_eq_length_filter,
      issuesFiltered_some]
    exact ⟨List.ne_nil_of_length_pos, List.length_pos.mpr⟩

/-- **C8**: the CLI entry point exits with code 1 when the input file does
not exist or the stage cannot be opened; otherwise it exits 0 iff the run
produced no ERROR-level issue, so WARNING and INFO issues never affect the
exit code. -/
theorem c8_exit_code :
    (∀ o : Option Stage, mainExitCode false o = 1) ∧
    mainExitCode true none = 1 ∧
    (∀ st : Stage,
      (mainExitCode true (some st) = 0 ↔
        issuesFiltered (validate_stage initValidator st) (some ERROR) = []) ∧
      (mainExitCode true (some st) = 1 ↔
        issuesFiltered (validate_stage initValidator st) (some ERROR) ≠ [])) := by
  refine ⟨fun o => rfl, rfl, fun st => ?_⟩
  have key : has_errors (validate_stage initValidator st) = true ↔
      issuesFiltered (validate_stage initValidator st) (some ERROR) ≠ [] := by
    rw [has_errors, decide_eq_true_iff,
      (validate_stage_consistent initValidator st).1,
      List.countP_eq_length_filter, issuesFiltered_some]
    exact ⟨List.ne_nil_of_length_pos, List.length_pos.mpr⟩
  cases hb : has_errors (validate_stage initValidator st) with
  | false =>
    have hnil : issuesFiltered (validate_stage initValidator st) (some ERROR) = [] := by
      by_contra hne
      have hc := key.mpr hne
      rw [hb] at hc
      exact Bool.false_ne_true hc
    simp [mainExitCode, hb, hnil]
  | true =>
    have hne := key.mp hb
    simp [mainExitCode, hb, hne]

/-- **C4**: each rule returns an empty issue list (not a failure) when it
does not apply to the node: the Health/Movement/AI rules when the
corresponding API schema is not applied, the Namespace rule when no
attribute is sparkle-prefixed, and the Entity-type rule when the declared
type is none of the three entity types.  (The Performance rule applies to
every node, so it has no inapplicability case.) -/
theorem c4_inapplicable_rules_return_empty (p : Prim) :
    ((∀ a ∈ p.attributes, strStartsWith a.name "sparkle:" = false) →
      namespaceValidate p = []) ∧
    ("SparkleHealthAPI" ∉ p.appliedSchemas → healthValidate p = []) ∧
    ("SparkleMovementAPI" ∉ p.appliedSchemas → movementValidate p = []) ∧
    ("SparkleAIAPI" ∉ p.appliedSchemas → aiValidate p = []) ∧
    (p.declaredType ≠ "SparkleEnemyCarrot" → p.declaredType ≠ "SparklePlayer" →
      p.declaredType ≠ "SparklePickup" → entityTypeValidate p = []) := by
  refine ⟨?_, ?_, ?_, ?_, ?_⟩
  · intro h
    rw [namespaceValidate, List.flatten_eq_nil_iff]
    intro l hl
    rw [List.mem_map] at hl
    obtain ⟨a, ha, rfl⟩ := hl
    simp [namespaceAttrIssues, h a ha]
  · intro h; simp [healthValidate, h]
  · intro h; simp [movementValidate, h]
  · intro h; simp [aiValidate, h]
  · intro h1 h2 h3; simp [entityTypeValidate, h1, h2, h3]

/-- Witness for **C4** at a concrete inapplicable prim. -/
theorem c4_inapplicable_rules_return_empty_witness :
    namespaceValidate plainPrim = [] ∧ healthValidate plainPrim = [] ∧
    movementValidate plainPrim = [] ∧ aiValidate plainPrim = [] ∧
    entityTypeValidate plainPrim = [] := by
  obtain ⟨h1, h2, h3, h4, h5⟩ := c4_inapplicable_rules_return_empty plainPrim
  exact ⟨h1 (by decide), h2 (by decide), h3 (by decide), h4 (by decide),
    h5 (by decide) (by decide) (by decide)⟩

/-- **C5**: every numeric minimum comparison is strict, so a value exactly
equal to the minimum produces no ERROR.  Stated inclusively: health values
with `0 ≤ current ≤ maximum`, a speed with `0 ≤ speed ≤ 100` and an
allowed pattern, and a behavior in the allow-list with `0 ≤ radius` and no
patrol path, produce no issue at all; the boundary values `current = 0`,
`speed = 0`, `radius = 0` are admitted by the hypotheses and exercised by
the witness. -/
theorem c5_minimum_boundary_inclusive (p : Prim) :
    (∀ ca ma cv mv,
      "SparkleHealthAPI" ∈ p.appliedSchemas →
      getAttribute p "sparkle:health:current" = some ca →
      getAttribute p "sparkle:health:maximum" = some ma →
      ca.typeName = "float" → ma.typeName = "float" →
      getFloat ca = some cv → getFloat ma = some mv →
      0 ≤ cv → 0 ≤ mv → cv ≤ mv →
      healthValidate p = []) ∧
    (∀ sa pa s t,
      "SparkleMovementAPI" ∈ p.appliedSchemas →
      getAttribute p "sparkle:movement:speed" = some sa →
      getFloat sa = some s → 0 ≤ s → s ≤ 100 →
      getAttribute p "sparkle:movement:pattern" = some pa →
      getToken pa = some t → t ∈ allowedPatterns →
      movementValidate p = []) ∧
    (∀ ba ra b r,
      "SparkleAIAPI" ∈ p.appliedSchemas →
      getAttribute p "sparkle:ai:behavior" = some ba →
      getToken ba = some b → b ∈ allowedBehaviors →
      getAttribute p "sparkle:ai:detectionRadius" = some ra →
      getFloat ra = some r → 0 ≤ r →
      hasRelationship p "sparkle:ai:patrolPath" = false →
      aiValidate p = []) := by
  refine ⟨?_, ?_, ?_⟩
  · intro ca ma cv mv hmem hca hma hcat hmat hcv hmv hcv0 hmv0 hle
    simp [healthValidate, hmem, healthAttrSegment, hca, hma, hcat, hmat, hcv, hmv,
      healthExceedsSegment, not_lt.mpr hcv0, not_lt.mpr hmv0, not_lt.mpr hle]
  · intro sa pa s t hmem hsa hs hs0 hs100 hpa ht htmem
    simp [movementValidate, hmem, movementSpeedSegment, hsa, hs,
      movementPatternSegment, hpa, ht, htmem, not_lt.mpr hs0, not_lt.mpr hs100]
  · intro ba ra b r hmem hba hb hbmem hra hr hr0 hrel
    simp [aiValidate, hmem, aiBehaviorSegment, hba, hb, hbmem,
      aiRadiusSegment, hra, hr, not_lt.mpr hr0, aiPatrolSegment, hrel]

/-- Witness for **C5**: `current = 0`, `maximum = 0`, `speed = 0` and
`detectionRadius = 0` produce no issue. -/
theorem c5_minimum_boundary_inclusive_witness :
    healthValidate boundaryPrim = [] ∧ movementValidate boundaryPrim = [] ∧
    aiValidate boundaryPrim = [] := by
  obtain ⟨h1, h2, h3⟩ := c5_minimum_boundary_inclusive boundaryPrim
  exact ⟨h1 ⟨"sparkle:health:current", "float", some (.num 0)⟩
            ⟨"sparkle:health:maximum", "float", some (.num 0)⟩ 0 0
            (by decide) (by decide) (by decide) rfl rfl (by decide) (by decide)
            (by decide) (by decide) (by decide),
         h2 ⟨"sparkle:movement:speed", "float", some (.num 0)⟩
            ⟨"sparkle:movement:pattern", "token", some (.tok "direct")⟩ 0 "direct"
            (by decide) (by decide) (by decide) (by decide) (by decide)
            (by decide) (by decide) (by decide),
         h3 ⟨"sparkle:ai:behavior", "token", some (.tok "passive")⟩
            ⟨"sparkle:ai:detectionRadius", "float", some (.num 0)⟩ "passive" 0
            (by decide) (by decide) (by decide) (by decide) (by decide)
            (by decide) (by decide) (by decide)⟩

/-- **C6**: a prim with `SparkleHealthAPI` whose current/maximum health
attributes exist with the expected float type and values 150 and 100
yields exactly one ERROR from the Health rule, with rule id
`HEALTH_COMP_001` and a message mentioning "exceeds maximum". -/
theorem c6_health_exceeds_maximum (p : Prim) (ca ma : Attr)
    (hmem : "SparkleHealthAPI" ∈ p.appliedSchemas)
    (hca : getAttribute p "sparkle:health:current" = some ca)
    (hma : getAttribute p "sparkle:health:maximum" = some ma)
    (hcat : ca.typeName = "float") (hmat : ma.typeName = "float")
    (hcav : ca.value = some (.num 150)) (hmav : ma.value = some (.num 100)) :
    ∃ i, healthValidate p = [i] ∧ i.severity = ERROR ∧
      i.rule_id = "HEALTH_COMP_001" ∧
      ∃ s1 s2, i.message = s1 ++ "exceeds maximum" ++ s2 := by
  have hout : healthValidate p = [healthExceedsIssue p.path 150 100] := by
    simp [healthValidate, hmem, healthAttrSegment, hca, hma, hcat, hmat,
      getFloat, hcav, hmav, healthExceedsSegment]
    norm_num
  exact ⟨healthExceedsIssue p.path 150 100, hout, rfl, rfl,
    "Current health (150.0) ", " health (100.0)", rfl⟩

/-- Witness for **C6** at the Scenario A prim. -/
theorem c6_health_exceeds_maximum_witness :
    ∃ i, healthValidate scenarioAPrim = [i] ∧ i.severity = ERROR ∧
      i.rule_id = "HEALTH_COMP_001" ∧
      ∃ s1 s2, i.message = s1 ++ "exceeds maximum" ++ s2 :=
  c6_health_exceeds_maximum scenarioAPrim
    ⟨"sparkle:health:current", "float", some (.num 150)⟩
    ⟨"sparkle:health:maximum", "float", some (.num 100)⟩
    (by decide) (by decide) (by decide) rfl rfl rfl rfl

lemma namespace_flatten_length (path : String) (l : List Attr) :
    ((l.map (namespaceAttrIssues path)).flatten).length =
      l.countP (fun a => strStartsWith a.name "sparkle:" && !namespacePatternMatch a.name) := by
  induction l with
  | nil => rfl
  | cons a l ih =>
    rw [List.map_cons, List.flatten_cons, List.length_append, ih, List.countP_cons]
    cases hs : strStartsWith a.name "sparkle:" <;>
      cases hm : namespacePatternMatch a.name <;>
        simp [namespaceAttrIssues, hs, hm, Nat.add_comm]

/-- **C7**: the Namespace rule flags exactly the sparkle-prefixed attribute
names that fail the pattern (one ERROR each from `SCHEMA_NAMESPACE_001`,
never a non-sparkle attribute), and a node whose single attribute is named
`sparkle:BadName` yields exactly that one ERROR. -/
theorem c7_namespace_rule (p : Prim) :
    ((namespaceValidate p).length =
      p.attributes.countP
        (fun a => strStartsWith a.name "sparkle:" && !namespacePatternMatch a.name)) ∧
    (∀ i ∈ namespaceValidate p, ∃ a ∈ p.attributes,
      strStartsWith a.name "sparkle:" = true ∧ namespacePatternMatch a.name = false ∧
      i = namespaceIssue p.path a.name ∧ i.severity = ERROR ∧
      i.rule_id = "SCHEMA_NAMESPACE_001") ∧
    (∀ a, p.attributes = [a] → a.name = "sparkle:BadName" →
      namespaceValidate p = [namespaceIssue p.path "sparkle:BadName"]) := by
  refine ⟨namespace_flatten_length p.path p.attributes, ?_, ?_⟩
  · intro i hi
    rw [namespaceValidate, List.mem_flatten] at hi
    obtain ⟨l, hl, hil⟩ := hi
    rw [List.mem_map] at hl
    obtain ⟨a, ha, rfl⟩ := hl
    refine ⟨a, ha, ?_⟩
    cases hs : strStartsWith a.name "sparkle:" with
    | false => simp [namespaceAttrIssues, hs] at hil
    | true =>
      cases hm : namespacePatternMatch a.name with
      | true => simp [namespaceAttrIssues, hs, hm] at hil
      | false =>
        simp [namespaceAttrIssues, hs, hm] at hil
        subst hil
        exact ⟨rfl, rfl, rfl, rfl, rfl⟩
  · intro a hattrs hname
    have h1 : strStartsWith "sparkle:BadName" "sparkle:" = true := by decide
    have h2 : namespacePatternMatch "sparkle:BadName" = false := by decide
    rw [namespaceValidate, hattrs]
    simp [namespaceAttrIssues, hname, h1, h2]

/-- Witness for **C7** at the Scenario C prim. -/
theorem c7_namespace_rule_witness :
    namespaceValidate badNamePrim = [namespaceIssue "/World/BadAttr" "sparkle:BadName"] :=
  (c7_namespace_rule badNamePrim).2.2 ⟨"sparkle:BadName", "float", none⟩ rfl rfl

/-- **C9**: on a prim with `SparkleAIAPI` and a `sparkle:ai:patrolPath`
relationship, a movement pattern differing from "patrol" yields the
patrol-mismatch WARNING (never an ERROR), while an absent movement-pattern
attribute makes the AI rule's patrol check contribute nothing, leaving
only the Movement rule's generic missing-pattern WARNING. -/
theorem c9_patrol_path_consistency (p : Prim)
    (hai : "SparkleAIAPI" ∈ p.appliedSchemas)
    (hrel : hasRelationship p "sparkle:ai:patrolPath" = true) :
    (∀ a t, getAttribute p "sparkle:movement:pattern" = some a →
      getToken a = some t → t ≠ "patrol" →
      aiPatrolSegment p = [aiPatrolMismatchIssue p.path t] ∧
      (aiPatrolMismatchIssue p.path t).severity = WARNING ∧
      aiPatrolMismatchIssue p.path t ∈ aiValidate p) ∧
    (getAttribute p "sparkle:movement:pattern" = none →
      aiPatrolSegment p = [] ∧
      ("SparkleMovementAPI" ∈ p.appliedSchemas →
        movementPatternMissingIssue p.path ∈ movementValidate p ∧
        (movementPatternMissingIssue p.path).severity = WARNING)) := by
  constructor
  · intro a t ha ht hne
    have hseg : aiPatrolSegment p = [aiPatrolMismatchIssue p.path t] := by
      simp [aiPatrolSegment, hrel, ha, ht, hne]
    refine ⟨hseg, rfl, ?_⟩
    simp only [aiValidate, if_pos hai]
    exact List.mem_append.mpr (Or.inr
      (by rw [hseg]; exact List.mem_singleton.mpr rfl))
  · intro hnone
    refine ⟨by simp [aiPatrolSegment, hrel, hnone], fun hmv => ⟨?_, rfl⟩⟩
    simp only [movementValidate, if_pos hmv]
    refine List.mem_append.mpr (Or.inr ?_)
    simp [movementPatternSegment, hnone]

/-- Witness for **C9** at concrete prims for both branches. -/
theorem c9_patrol_path_consistency_witness :
    aiPatrolSegment patrolMismatchPrim = [aiPatrolMismatchIssue "/World/P1" "wander"] ∧
    aiPatrolMismatchIssue "/World/P1" "wander" ∈ aiValidate patrolMismatchPrim ∧
    aiPatrolSegment patrolNoPatternPrim = [] ∧
    movementPatternMissingIssue "/World/P2" ∈ movementValidate patrolNoPatternPrim := by
  obtain ⟨hA, -⟩ := c9_patrol_path_consistency patrolMismatchPrim (by decide) (by decide)
  obtain ⟨h1, -, h3⟩ := hA ⟨"sparkle:movement:pattern", "token", some (.tok "wander")⟩
    "wander" (by decide) rfl (by decide)
  obtain ⟨-, hB⟩ := c9_patrol_path_consistency patrolNoPatternPrim (by decide) (by decide)
  obtain ⟨h4, h5⟩ := hB (by decide)
  obtain ⟨h6, -⟩ := h5 (by decide)
  exact ⟨h1, h3, h4, h6⟩

/-- **C10**: when a checked attribute exists but its value cannot be
retrieved, every value-level check is silently skipped: with an unreadable
current-health value (types correct, maximum fine) the Health rule emits
nothing, and with unreadable speed and pattern values the Movement rule
emits nothing. -/
theorem c10_unretrievable_value_skipped (p : Prim) :
    (∀ ca ma mv,
      "SparkleHealthAPI" ∈ p.appliedSchemas →
      getAttribute p "sparkle:health:current" = some ca →
      getAttribute p "sparkle:health:maximum" = some ma →
      ca.typeName = "float" → ma.typeName = "float" →
      getFloat ca = none → getFloat ma = some mv → 0 ≤ mv →
      healthValidate p = []) ∧
    (∀ sa pa,
      "SparkleMovementAPI" ∈ p.appliedSchemas →
      getAttribute p "sparkle:movement:speed" = some sa →
      getAttribute p "sparkle:movement:pattern" = some pa →
      getFloat sa = none → getToken pa = none →
      movementValidate p = []) := by
  constructor
  · intro ca ma mv hmem hca hma hcat hmat hcv hmv hmv0
    simp [healthValidate, hmem, healthAttrSegment, hca, hma, hcat, hmat, hcv, hmv,
      healthExceedsSegment, not_lt.mpr hmv0]
  · intro sa pa hmem hsa hpa hs ht
    simp [movementValidate, hmem, movementSpeedSegment, hsa, hs,
      movementPatternSegment, hpa, ht]

/-- Witness for **C10** at a concrete prim with unreadable values. -/
theorem c10_unretrievable_value_skipped_witness :
    healthValidate noValuePrim = [] ∧ movementValidate noValuePrim = [] := by
  obtain ⟨h1, h2⟩ := c10_unretrievable_value_skipped noValuePrim
  exact ⟨h1 ⟨"sparkle:health:current", "float", none⟩
            ⟨"sparkle:health:maximum", "float", some (.num 100)⟩ 100
            (by decide) (by decide) (by decide) rfl rfl rfl rfl (by decide),
         h2 ⟨"sparkle:movement:speed", "float", none⟩
            ⟨"sparkle:movement:pattern", "token", none⟩
            (by decide) (by decide) (by decide) rfl rfl⟩

/-- **C1** counterexample: on a run producing one issue, the generated
report's issue record does not carry the field name `severity_name` the
claim requires — the code writes the field under the name `severity` —
so the claimed record shape is false at this input. -/
theorem c1_report_field_names_counterexample : ¬ claimReportShape c1Report := by
  intro h
  obtain ⟨-, -, xs, hxs, hall⟩ := h
  have hx : objGet c1Report "issues" =
      some (.arr [issueToJson (namespaceIssue "/World/BadAttr" "sparkle:BadName")]) := rfl
  rw [hx] at hxs
  injection hxs with h1
  injection h1 with h2
  subst h2
  have hk := hall (issueToJson (namespaceIssue "/World/BadAttr" "sparkle:BadName"))
    (List.mem_singleton.mpr rfl)
  exact absurd hk (by decide)

/-- **C1 (amended)**: for every validator state, the generated report has
exactly the top-level keys `summary` (with keys `errors`, `warnings`,
`info`, `total`) and `issues`, and every element of the `issues` array is
the record of one accumulated issue with exactly the field names `path`,
`message`, `severity`, `rule_id`, `fix_description` — the field holding the
severity's name is called `severity`, not `severity_name`.  The report is a
pure function of the accumulated state, hence reproducible for a fixed
input. -/
theorem c1_report_shape_amended (v : SchemaValidator) :
    objKeys (generate_report v) = ["summary", "issues"] ∧
    (∃ s, objGet (generate_report v) "summary" = some s ∧
      objKeys s = ["errors", "warnings", "info", "total"]) ∧
    (∃ xs, objGet (generate_report v) "issues" = some (.arr xs) ∧
      ∀ entry ∈ xs, ∃ i ∈ v.all_issues,
        entry = issueToJson i ∧ objKeys entry = codeIssueRecordKeys) := by
  refine ⟨rfl, ⟨_, rfl, rfl⟩, _, rfl, ?_⟩
  intro entry hentry
  rw [List.mem_map] at hentry
  obtain ⟨i, hi, rfl⟩ := hentry
  exact ⟨i, hi, rfl, rfl⟩

/-- Witness for the amended **C1** at a concrete one-issue run. -/
theorem c1_report_shape_amended_witness :
    objKeys (issueToJson (namespaceIssue "/World/BadAttr" "sparkle:BadName"))
      = codeIssueRecordKeys := by
  obtain ⟨-, -, xs, hxs, hall⟩ :=
    c1_report_shape_amended (validate_stage initValidator c1Stage)
  have hx : objGet (generate_report (validate_stage initValidator c1Stage)) "issues" =
      some (.arr [issueToJson (namespaceIssue "/World/BadAttr" "sparkle:BadName")]) := rfl
  rw [hx] at hxs
  injection hxs with h1
  injection h1 with h2
  subst h2
  obtain ⟨-, -, -, hk⟩ := hall _ (List.mem_singleton.mpr rfl)
  exact hk

end SchemaVal
